import Mathlib

/-!
Verification of the `DeckBox` generator (`src/boxes/generators/deckbox.py`).

The generator is a single Python file.  Its numeric quantities are Python
floats on which only exact arithmetic (`+`, `-`, `*`, `/` by constants) is
performed, so we embed them as rationals `ℚ`; the compartment count `num`
is a Python `int`, embedded as `ℤ`.

The edge profiles (`InsetEdge.__call__`, `FingerHoleEdge.__call__`) emit a
sequence of primitive drawing commands (`self.edge len tabs`,
`self.corner degrees radius`); we embed the emitted command list and give
it an exact turtle-graphics semantics.  All corner angles occurring in
this generator are multiples of 90 degrees, for which sine and cosine are
exact rationals, so the semantics below is exact on every path this
generator produces.

`DeckBox.render` emits a fixed sequence of `rectangularWall` calls; we
embed it as the list of those calls, each recorded with its width, height,
edge code, the finger-hole descriptors produced by its callback (if any),
its cursor-move directive, and its label.  Calls with move directive
"up only" advance the layout cursor without drawing a panel.
-/

/-- A primitive path command emitted by an edge profile:
`edge len tabs` advances by `len` (with finger-tab eligibility marker
`tabs`), `corner deg radius` turns by `deg` degrees following an arc of
the given radius. -/
inductive PathCmd where
  | edge (len : ℚ) (tabs : ℕ)
  | corner (deg : ℤ) (radius : ℚ)
deriving DecidableEq, Repr

/-- Exact sine of an angle given in degrees; exact on multiples of 90
degrees, which are the only angles this generator ever turns by. -/
def sinDeg (d : ℤ) : ℚ :=
  if d % 360 = 0 then 0
  else if d % 360 = 90 then 1
  else if d % 360 = 180 then 0
  else if d % 360 = 270 then -1
  else 0

/-- Exact cosine of an angle given in degrees; exact on multiples of 90
degrees. -/
def cosDeg (d : ℤ) : ℚ :=
  if d % 360 = 0 then 1
  else if d % 360 = 90 then 0
  else if d % 360 = 180 then -1
  else if d % 360 = 270 then 0
  else 1

/-- Turtle state while tracing an edge profile: current position and
current heading in degrees (0 = along the nominal edge direction). -/
structure TurtleState where
  px : ℚ
  py : ℚ
  heading : ℤ
deriving DecidableEq, Repr

/-- One step of the turtle semantics.  A straight `edge` advances along
the heading.  A `corner` of angle `d` and radius `r` follows a circular
arc: in the local frame of the current heading its endpoint displacement
is `(r·sin|d|, sign d · r·(1 − cos|d|))`, and the heading turns by `d`. -/
def stepCmd (st : TurtleState) : PathCmd → TurtleState
  | PathCmd.edge len _ =>
      ⟨st.px + len * cosDeg st.heading, st.py + len * sinDeg st.heading, st.heading⟩
  | PathCmd.corner d r =>
      let a : ℚ := r * sinDeg |d|
      let b : ℚ := (Int.sign d : ℤ) * (r * (1 - cosDeg |d|))
      ⟨st.px + a * cosDeg st.heading - b * sinDeg st.heading,
       st.py + a * sinDeg st.heading + b * cosDeg st.heading,
       st.heading + d⟩

/-- Run a command list from a given turtle state. -/
def runPath (st : TurtleState) (cmds : List PathCmd) : TurtleState :=
  cmds.foldl stepCmd st

/-- Sum of the turning angles (degrees) of a path. -/
def netTurn (cmds : List PathCmd) : ℤ :=
  (cmds.map fun c =>
    match c with
    | PathCmd.edge _ _ => 0
    | PathCmd.corner d _ => d).sum

/-- The lengths of the straight (advance) segments of a path, in order. -/
def edgeLens (cmds : List PathCmd) : List ℚ :=
  cmds.filterMap fun c =>
    match c with
    | PathCmd.edge len _ => some len
    | PathCmd.corner _ _ => none

/-- The finger-tab eligibility markers of the straight segments of a path,
in order. -/
def edgeTabs (cmds : List PathCmd) : List ℕ :=
  cmds.filterMap fun c =>
    match c with
    | PathCmd.edge _ tabs => some tabs
    | PathCmd.corner _ _ => none

/-- Settings object for `InsetEdge` (absolute parameter `thickness`). -/
structure InsetEdgeSettings where
  thickness : ℚ
deriving DecidableEq, Repr

/-- `InsetEdge.__call__(length)`: the command sequence emitted by the
inset (lid-rail) edge profile, line for line from the source. -/
def InsetEdge.call (s : InsetEdgeSettings) (length : ℚ) : List PathCmd :=
  let t := s.thickness
  [PathCmd.corner 90 0,
   PathCmd.edge t 2,
   PathCmd.corner (-90) 0,
   PathCmd.edge length 2,
   PathCmd.corner (-90) 0,
   PathCmd.edge t 2,
   PathCmd.corner 90 0]

/-- Settings object for `FingerHoleEdge` (absolute parameter
`wallheight`). -/
structure FingerHoleEdgeSettings where
  wallheight : ℚ
deriving DecidableEq, Repr

/-- `FingerHoleEdge.__call__(length)`: the command sequence emitted by the
finger-access edge profile, line for line from the source.  The source
contains no length check and no error branch: the same seven commands are
emitted for every `length`. -/
def FingerHoleEdge.call (s : FingerHoleEdgeSettings) (length : ℚ) : List PathCmd :=
  let depth := s.wallheight / 5
  [PathCmd.edge (length / 2 - 10) 2,
   PathCmd.corner 90 0,
   PathCmd.edge depth 2,
   PathCmd.corner (-180) 10,
   PathCmd.edge depth 2,
   PathCmd.corner 90 0,
   PathCmd.edge (length / 2 - 10) 2]

/-- The box parameters of the `DeckBox` generator (argparse arguments
`deckheight`, `cardwidth`, `cardheight`, `num`, plus the material
`thickness` supplied by the framework). -/
structure DeckBox where
  deckheight : ℚ
  cardwidth : ℚ
  cardheight : ℚ
  num : ℤ
  thickness : ℚ
deriving DecidableEq, Repr

/-- Python `range(a, b)` (step 1) over the integers. -/
def pyRange (a b : ℤ) : List ℤ :=
  (List.range (b - a).toNat).map fun (j : ℕ) => a + (j : ℤ)

/-- Property `DeckBox.boxwidth`. -/
def DeckBox.boxwidth (s : DeckBox) : ℚ :=
  (s.num : ℚ) * (s.deckheight + s.thickness) + s.thickness

/-- Property `DeckBox.boxdepth`. -/
def DeckBox.boxdepth (s : DeckBox) : ℚ :=
  s.cardwidth + 2 * s.thickness

/-- Property `DeckBox.h`. -/
def DeckBox.h (s : DeckBox) : ℚ :=
  s.cardheight

/-- One `fingerHolesAt(x, y, length, angle)` call recorded by a divider
callback. -/
structure FingerHoles where
  x : ℚ
  y : ℚ
  length : ℚ
  angle : ℚ
deriving DecidableEq, Repr

/-- `DeckBox.divider_bottom`: the finger-hole rows cut into the Bottom
panel, one per internal divider. -/
def DeckBox.divider_bottom (s : DeckBox) : List FingerHoles :=
  let t := s.thickness
  let c := s.deckheight
  let y := s.boxdepth
  (pyRange 1 s.num).map fun (i : ℤ) => ⟨0.5 * t + (c + t) * (i : ℚ), 0, y, 90⟩

/-- `DeckBox.divider_back_and_front`: the finger-hole rows cut into the
Back and Front panels, one per internal divider. -/
def DeckBox.divider_back_and_front (s : DeckBox) : List FingerHoles :=
  let t := s.thickness
  let c := s.deckheight
  let y := s.cardheight
  (pyRange 1 s.num).map fun (i : ℤ) => ⟨0.5 * t + (c + t) * (i : ℚ), 0, y, 90⟩

/-- One `rectangularWall(w, hgt, edges, callback, move, label)` call made
by `DeckBox.render`, with `holes` the finger-hole descriptors produced by
its callback (empty when there is no callback).  Calls whose `move` is
"up only" advance the layout cursor without drawing a panel. -/
structure Panel where
  w : ℚ
  hgt : ℚ
  edges : String
  holes : List FingerHoles
  move : String
  label : Option String
deriving DecidableEq, Repr

/-- The character under which render registers the `InsetEdge` part
(`p.char = "a"`). -/
def insetSymbol : Char := 'a'

/-- The character under which render registers the `FingerHoleEdge` part
(`p.char = "A"`). -/
def fingerHoleSymbol : Char := 'A'

/-- `DeckBox.render`: the ordered sequence of `rectangularWall` calls the
generator makes, transcribed call for call from the source. -/
def DeckBox.render (s : DeckBox) : List Panel :=
  let h := s.h
  let t := s.thickness
  let x := s.boxwidth
  let y := s.boxdepth
  let c := s.deckheight
  [⟨x, y - t * 0.2, "eFee", [], "right", some ("Lid")⟩,
   ⟨x, y, "ffff", s.divider_bottom, "right", some ("Bottom")⟩,
   ⟨x, y, "eEEE", [], "up only", none⟩,
   ⟨x, t, "feee", [], "up", some ("Lip Front")⟩,
   ⟨x, t, "eefe", [], "up", some ("Lip Back")⟩,
   ⟨x, h + t, "FfFf", s.divider_back_and_front, "right", some ("Back")⟩,
   ⟨x, h + t, "FfFf", s.divider_back_and_front, "right", some ("Front")⟩,
   ⟨x, h + t, "EEEE", [], "up only", none⟩,
   ⟨y, h + t, "FFEF", [], "right", some ("Outer Side Left")⟩,
   ⟨y, h + t, "FFaF", [], "right", some ("Outer Side Right")⟩,
   ⟨y, h + t, "fFfF", [], "up only", none⟩,
   ⟨y, h, "Aeee", [], "right", some ("Inner Side Left")⟩,
   ⟨y, h, "Aeee", [], "right", some ("Inner Side Right")⟩,
   ⟨y, h, "eAee", [], "up only", none⟩,
   ⟨y - t * 0.2, t, "fEeE", [], "right", some ("Lid Lip")⟩,
   ⟨y, t * 2, "efee", [], "up only", none⟩]
  ++ ((pyRange 0 (s.num - 1)).map fun (_ : ℤ) =>
        (⟨h, y, "fAff", [], "right", some ("Divider")⟩ : Panel))
  ++ ((pyRange 0 s.num).map fun (_ : ℤ) =>
        [(⟨c, h, "eeee", [], "right", some ("Front inlay")⟩ : Panel),
         (⟨c, h, "eeee", [], "right", some ("Back inlay")⟩ : Panel)]).flatten
  ++ [⟨x, y - 2 * t, "eeee", [], "right", some ("Lid topper")⟩]

/-- The default parameter values of the generator (`deckheight=65`,
`cardwidth=68`, `cardheight=92`, `num=3`) with the framework's default
material thickness 3. -/
def deckboxDefault : DeckBox :=
  ⟨65, 68, 92, 3, 3⟩

/-- The drawn panels of a run: the `rectangularWall` calls that actually
emit a panel, i.e. all calls except the "up only" cursor advances. -/
def DeckBox.drawnPanels (s : DeckBox) : List Panel :=
  s.render.filter fun p => p.move ≠ "up only"

/-- The drawn panels carrying a given label. -/
def DeckBox.panelsLabeled (s : DeckBox) (l : String) : List Panel :=
  s.render.filter fun p => p.label = some l

/-! ### Evaluation lemmas for the exact trigonometry

The generator only ever turns by 0, ±90 and ±180 degrees; these are the
corresponding exact values. -/

@[simp] lemma sinDeg_zero : sinDeg 0 = 0 := rfl

@[simp] lemma sinDeg_ninety : sinDeg 90 = 1 := rfl

@[simp] lemma sinDeg_neg_ninety : sinDeg (-90) = -1 := rfl

@[simp] lemma sinDeg_oneeighty : sinDeg 180 = 0 := rfl

@[simp] lemma cosDeg_zero : cosDeg 0 = 1 := rfl

@[simp] lemma cosDeg_ninety : cosDeg 90 = 0 := rfl

@[simp] lemma cosDeg_neg_ninety : cosDeg (-90) = 0 := rfl

@[simp] lemma cosDeg_oneeighty : cosDeg 180 = -1 := rfl

@[simp] lemma sign_ninety : Int.sign 90 = 1 := rfl

@[simp] lemma sign_neg_ninety : Int.sign (-90) = -1 := rfl

@[simp] lemma sign_oneeighty : Int.sign 180 = 1 := rfl

@[simp] lemma sign_neg_oneeighty : Int.sign (-180) = -1 := rfl

/-! ### Helper lemmas -/

@[simp] lemma pyRange_length (a b : ℤ) : (pyRange a b).length = (b - a).toNat := by
  simp [pyRange]

lemma chain'_map_range {α : Type} (P : α → α → Prop) (g : ℕ → α) (m : ℕ)
    (h : ∀ j, j + 1 < m → P (g j) (g (j + 1))) :
    List.Chain' P ((List.range m).map g) := by
  rw [List.chain'_map]
  cases m with
  | zero => simp
  | succ k =>
      rw [List.chain'_range_succ]
      intro j hj
      exact h j (by omega)

lemma filter_flatten_replicate {α : Type} (q : α → Bool) (n : ℕ) (l : List α) :
    ((List.replicate n l).flatten).filter q = (List.replicate n (l.filter q)).flatten := by
  induction n with
  | zero => rfl
  | succ k ih => simp [List.replicate_succ, List.filter_append, ih]

lemma length_flatten_replicate {α : Type} (n : ℕ) (l : List α) :
    ((List.replicate n l).flatten).length = n * l.length := by
  induction n with
  | zero => simp
  | succ k ih =>
      simp [List.replicate_succ, ih]
      ring

lemma flatten_replicate_nil {α : Type} (n : ℕ) :
    ((List.replicate n ([] : List α)).flatten) = [] := by
  induction n with
  | zero => rfl
  | succ k ih => simp [List.replicate_succ, ih]

lemma divider_bottom_x_eq (b : DeckBox) :
    b.divider_bottom.map FingerHoles.x
      = (List.range (b.num - 1).toNat).map
          (fun (j : ℕ) => 0.5 * b.thickness + (b.deckheight + b.thickness) * (1 + (j : ℚ))) := by
  simp only [DeckBox.divider_bottom, pyRange, List.map_map]
  refine List.map_congr_left ?_
  intro j hj
  simp [Function.comp]

lemma divider_back_and_front_x_eq (b : DeckBox) :
    b.divider_back_and_front.map FingerHoles.x
      = (List.range (b.num - 1).toNat).map
          (fun (j : ℕ) => 0.5 * b.thickness + (b.deckheight + b.thickness) * (1 + (j : ℚ))) := by
  simp only [DeckBox.divider_back_and_front, pyRange, List.map_map]
  refine List.map_congr_left ?_
  intro j hj
  simp [Function.comp]

/-! ### The claims -/

/-- C1.  For every parameter set with num ≥ 1 and positive deckheight,
cardwidth, cardheight and thickness, the derived dimensions satisfy
exactly boxwidth = num·(deckheight + thickness) + thickness,
boxdepth = cardwidth + 2·thickness, and height = cardheight. -/
theorem derived_dimensions_exact (b : DeckBox) (hn : 1 ≤ b.num)
    (hdh : 0 < b.deckheight) (hcw : 0 < b.cardwidth)
    (hch : 0 < b.cardheight) (ht : 0 < b.thickness) :
    b.boxwidth = (b.num : ℚ) * (b.deckheight + b.thickness) + b.thickness
    ∧ b.boxdepth = b.cardwidth + 2 * b.thickness
    ∧ b.h = b.cardheight :=
  ⟨rfl, rfl, rfl⟩

/-- C1 witness: the theorem at the default parameters; there
boxwidth = 207, boxdepth = 74 and height = 92. -/
theorem derived_dimensions_exact_witness :
    (deckboxDefault.boxwidth
        = (deckboxDefault.num : ℚ) * (deckboxDefault.deckheight + deckboxDefault.thickness)
          + deckboxDefault.thickness
      ∧ deckboxDefault.boxdepth = deckboxDefault.cardwidth + 2 * deckboxDefault.thickness
      ∧ deckboxDefault.h = deckboxDefault.cardheight)
    ∧ deckboxDefault.boxwidth = 207
    ∧ deckboxDefault.boxdepth = 74
    ∧ deckboxDefault.h = 92 :=
  ⟨derived_dimensions_exact deckboxDefault (by norm_num [deckboxDefault])
      (by norm_num [deckboxDefault]) (by norm_num [deckboxDefault])
      (by norm_num [deckboxDefault]) (by norm_num [deckboxDefault]),
   by norm_num [deckboxDefault, DeckBox.boxwidth],
   by norm_num [deckboxDefault, DeckBox.boxdepth],
   by norm_num [deckboxDefault, DeckBox.h]⟩

/-- C2.  For num ≥ 1, deckheight > 0, thickness > 0, both divider
callbacks produce exactly num − 1 holes, at the same x-offsets
x_i = 0.5·thickness + (deckheight + thickness)·i for i = 1 … num − 1,
strictly increasing and uniformly spaced by deckheight + thickness, each
at angle 90; divider_bottom cuts holes of length boxdepth while
divider_back_and_front cuts holes of length cardheight. -/
theorem divider_hole_positions (b : DeckBox) (hn : 1 ≤ b.num)
    (hdh : 0 < b.deckheight) (ht : 0 < b.thickness) :
    (b.divider_bottom.length : ℤ) = b.num - 1
    ∧ (b.divider_back_and_front.length : ℤ) = b.num - 1
    ∧ b.divider_bottom.map FingerHoles.x = b.divider_back_and_front.map FingerHoles.x
    ∧ b.divider_bottom
        = (pyRange 1 b.num).map
            (fun (i : ℤ) =>
              ⟨0.5 * b.thickness + (b.deckheight + b.thickness) * (i : ℚ), 0, b.boxdepth, 90⟩)
    ∧ b.divider_back_and_front
        = (pyRange 1 b.num).map
            (fun (i : ℤ) =>
              ⟨0.5 * b.thickness + (b.deckheight + b.thickness) * (i : ℚ), 0, b.cardheight, 90⟩)
    ∧ List.Chain' (fun p q => p < q) (b.divider_bottom.map FingerHoles.x)
    ∧ List.Chain' (fun p q => q - p = b.deckheight + b.thickness)
        (b.divider_bottom.map FingerHoles.x) := by
  refine ⟨?_, ?_, ?_, rfl, rfl, ?_, ?_⟩
  · simp [DeckBox.divider_bottom]
    omega
  · simp [DeckBox.divider_back_and_front]
    omega
  · rw [divider_bottom_x_eq, divider_back_and_front_x_eq]
  · rw [divider_bottom_x_eq]
    apply chain'_map_range
    intro j hj
    have hct : 0 < b.deckheight + b.thickness := by linarith
    push_cast
    nlinarith
  · rw [divider_bottom_x_eq]
    apply chain'_map_range
    intro j hj
    push_cast
    ring

/-- C2 witness: the theorem at the default parameters (deckheight = 65,
cardwidth = 68, cardheight = 92, num = 3, thickness = 3); there the
x-offsets are 69.5 and 137.5, the bottom holes have length
boxdepth = 74 and the back/front holes have length cardheight = 92. -/
theorem divider_hole_positions_witness :
    List.Chain' (fun p q => p < q) (deckboxDefault.divider_bottom.map FingerHoles.x)
    ∧ deckboxDefault.divider_bottom.map FingerHoles.x = [69.5, 137.5]
    ∧ deckboxDefault.divider_bottom.map FingerHoles.length = [74, 74]
    ∧ deckboxDefault.divider_back_and_front.map FingerHoles.length = [92, 92]
    ∧ deckboxDefault.divider_bottom.map FingerHoles.angle = [90, 90] :=
  ⟨(divider_hole_positions deckboxDefault (by norm_num [deckboxDefault])
      (by norm_num [deckboxDefault]) (by norm_num [deckboxDefault])).2.2.2.2.2.1,
   by norm_num [deckboxDefault, DeckBox.divider_bottom, DeckBox.boxdepth,
     show pyRange 1 3 = [1, 2] from rfl],
   by norm_num [deckboxDefault, DeckBox.divider_bottom, DeckBox.boxdepth,
     show pyRange 1 3 = [1, 2] from rfl],
   by norm_num [deckboxDefault, DeckBox.divider_back_and_front,
     show pyRange 1 3 = [1, 2] from rfl],
   by norm_num [deckboxDefault, DeckBox.divider_bottom, DeckBox.boxdepth,
     show pyRange 1 3 = [1, 2] from rfl]⟩

/-- C3.  For every edge length and thickness, the inset edge profile
emits exactly the path turn 90, advance t, turn −90, advance length,
turn −90, advance t, turn 90, every advance carrying the finger-tab
marker; the sum of its turning angles is zero, the final heading equals
the initial one, and the net displacement is exactly (length, 0), so the
path substitutes for a straight edge of the same nominal length. -/
theorem inset_edge_path (s : InsetEdgeSettings) (length : ℚ) :
    InsetEdge.call s length
      = [PathCmd.corner 90 0, PathCmd.edge s.thickness 2, PathCmd.corner (-90) 0,
         PathCmd.edge length 2, PathCmd.corner (-90) 0, PathCmd.edge s.thickness 2,
         PathCmd.corner 90 0]
    ∧ edgeTabs (InsetEdge.call s length) = [2, 2, 2]
    ∧ netTurn (InsetEdge.call s length) = 0
    ∧ runPath ⟨0, 0, 0⟩ (InsetEdge.call s length) = ⟨length, 0, 0⟩ := by
  refine ⟨rfl, rfl, rfl, ?_⟩
  norm_num [runPath, InsetEdge.call, stepCmd]

/-- C4.  For every edge length and wall height, the finger-hole edge
profile uses notch depth wallheight/5 and emits exactly the path
advance (length/2 − 10), turn 90, advance depth, turn −180 with corner
radius 10, advance depth, turn 90, advance (length/2 − 10), every
advance carrying the finger-tab marker; its list of straight-segment
lengths is a palindrome (the two outer segments are equal and the two
depth segments are equal), so the path is left-right symmetric about the
edge midpoint. -/
theorem finger_hole_edge_path (s : FingerHoleEdgeSettings) (length : ℚ) :
    FingerHoleEdge.call s length
      = [PathCmd.edge (length / 2 - 10) 2, PathCmd.corner 90 0,
         PathCmd.edge (s.wallheight / 5) 2, PathCmd.corner (-180) 10,
         PathCmd.edge (s.wallheight / 5) 2, PathCmd.corner 90 0,
         PathCmd.edge (length / 2 - 10) 2]
    ∧ edgeTabs (FingerHoleEdge.call s length) = [2, 2, 2, 2]
    ∧ edgeLens (FingerHoleEdge.call s length)
        = [length / 2 - 10, s.wallheight / 5, s.wallheight / 5, length / 2 - 10]
    ∧ edgeLens (FingerHoleEdge.call s length)
        = (edgeLens (FingerHoleEdge.call s length)).reverse :=
  ⟨rfl, rfl, rfl, rfl⟩

/-- C5 counterexample.  The claim says invoking the finger-hole profile
with length ≤ 20 fails with a GeometryUnderflow error; in the source
there is no such check and no error branch: at length 10 the profile
still emits its full seven-command path (with outer segments of negative
length −5). -/
theorem finger_hole_no_underflow_cex :
    FingerHoleEdge.call ⟨92⟩ 10
      = [PathCmd.edge (-5) 2, PathCmd.corner 90 0, PathCmd.edge (92 / 5) 2,
         PathCmd.corner (-180) 10, PathCmd.edge (92 / 5) 2, PathCmd.corner 90 0,
         PathCmd.edge (-5) 2]
    ∧ (10 : ℚ) ≤ 20
    ∧ (10 : ℚ) / 2 - 10 < 0 := by
  norm_num [FingerHoleEdge.call]

/-- C5 amended.  The finger-hole profile performs no length check and
never fails: for every settings and length it emits the same seven
commands; its outer segment length length/2 − 10 is positive exactly
when length > 20, and non-positive (degenerate geometry, silently
emitted) exactly when length ≤ 20. -/
theorem finger_hole_total (s : FingerHoleEdgeSettings) (length : ℚ) :
    (FingerHoleEdge.call s length).length = 7
    ∧ (edgeLens (FingerHoleEdge.call s length)).head? = some (length / 2 - 10)
    ∧ (0 < length / 2 - 10 ↔ 20 < length) := by
  refine ⟨rfl, rfl, ?_⟩
  constructor <;> intro h <;> linarith

/-- C10.  For every edge length and wall height, the finger-hole path
has zero net turning angle, restores the initial heading, and its net
displacement is exactly (length, 0): the two outer segments contribute
2·(length/2 − 10) and the −180 degree arc of radius 10 contributes an
advance of 2·10 = 20 along the original edge direction, so the path is a
drop-in replacement for a straight edge of the same nominal length. -/
theorem finger_hole_edge_drop_in (s : FingerHoleEdgeSettings) (length : ℚ) :
    netTurn (FingerHoleEdge.call s length) = 0
    ∧ runPath ⟨0, 0, 0⟩ (FingerHoleEdge.call s length) = ⟨length, 0, 0⟩
    ∧ runPath ⟨0, 0, 90⟩ [PathCmd.corner (-180) 10] = ⟨2 * 10, 0, -90⟩
    ∧ (length / 2 - 10) + (length / 2 - 10) + 2 * 10 = length := by
  refine ⟨rfl, ?_, ?_, by ring⟩
  · norm_num [runPath, FingerHoleEdge.call, stepCmd]
    ring_nf
  · norm_num [runPath, stepCmd]

/-- C6 counterexample.  The claim says generation fails with an
InvalidParameter error before any panel is emitted whenever a parameter
is non-positive or num < 1; the source contains no validation at all: at
num = 0 and thickness = −1 the render sequence is still emitted in full
(17 rectangularWall calls, 12 of them drawn panels), so panels are
produced rather than a failure. -/
theorem render_no_validation_cex :
    (DeckBox.render ⟨65, 68, 92, 0, -1⟩).length = 17
    ∧ (DeckBox.drawnPanels ⟨65, 68, 92, 0, -1⟩).length = 12
    ∧ DeckBox.render ⟨65, 68, 92, 0, -1⟩ ≠ [] := by
  refine ⟨?_, ?_, ?_⟩
  · simp [DeckBox.render, show pyRange 0 (-1) = [] from rfl, show pyRange 0 0 = [] from rfl]
  · simp [DeckBox.drawnPanels, DeckBox.render, List.filter,
      show pyRange 0 (-1) = [] from rfl, show pyRange 0 0 = [] from rfl,
      show pyRange 1 0 = [] from rfl, DeckBox.divider_bottom, DeckBox.divider_back_and_front]
  · simp [DeckBox.render]

/-- C6 amended.  The generator performs no parameter validation: for
every parameter values, valid or not, render emits its full call
sequence (17 fixed rectangularWall calls plus the divider and inlay
loops) and never fails; no InvalidParameter error exists in the
source. -/
theorem render_no_validation (b : DeckBox) :
    b.render.length = 17 + (b.num - 1).toNat + 2 * b.num.toNat
    ∧ b.render ≠ [] := by
  constructor
  · simp [DeckBox.render, length_flatten_replicate]
    omega
  · simp [DeckBox.render]

/-- C7 counterexample.  At the default parameters (num = 3) the run
draws 20 panels, not 13 + (3 − 1) + 2·3 = 21: the fixed drawn panels
number 12, not 13. -/
theorem panel_count_cex :
    deckboxDefault.drawnPanels.length = 20 ∧ (20 : ℕ) ≠ 13 + (3 - 1) + 2 * 3 := by
  constructor
  · simp [deckboxDefault, DeckBox.drawnPanels, DeckBox.render, List.filter,
      DeckBox.divider_bottom, DeckBox.divider_back_and_front,
      show pyRange 0 2 = [0, 1] from rfl, show pyRange 0 3 = [0, 1, 2] from rfl,
      show pyRange 1 3 = [1, 2] from rfl]
  · norm_num

/-- C7 amended.  For every num ≥ 1, one run draws exactly 12 fixed
panels (Lid, Bottom, 2 Lip, Back, Front, 2 Outer-Side, 2 Inner-Side,
Lid-Lip, Lid topper) plus num − 1 Divider panels plus 2·num inlay
panels (num labeled Front inlay and num labeled Back inlay); in
particular for num = 1 there are zero Divider panels and exactly one
Front-inlay/Back-inlay pair. -/
theorem panel_count (b : DeckBox) (hn : 1 ≤ b.num) :
    (b.drawnPanels.length : ℤ) = 12 + (b.num - 1) + 2 * b.num
    ∧ ((b.panelsLabeled ("Divider")).length : ℤ) = b.num - 1
    ∧ ((b.panelsLabeled ("Front inlay")).length : ℤ) = b.num
    ∧ ((b.panelsLabeled ("Back inlay")).length : ℤ) = b.num := by
  refine ⟨?_, ?_, ?_, ?_⟩ <;>
    simp [DeckBox.drawnPanels, DeckBox.panelsLabeled, DeckBox.render, List.filter_append,
      List.filter, filter_flatten_replicate, length_flatten_replicate,
      flatten_replicate_nil] <;>
    omega

/-- C7 witness: the theorem at num = 1 (deckheight = 65, cardwidth = 68,
cardheight = 92, thickness = 3): 14 drawn panels, zero Divider panels,
and exactly one Front-inlay/Back-inlay pair. -/
theorem panel_count_witness :
    ((DeckBox.drawnPanels ⟨65, 68, 92, 1, 3⟩).length : ℤ) = 14
    ∧ ((DeckBox.panelsLabeled ⟨65, 68, 92, 1, 3⟩ ("Divider")).length : ℤ) = 0
    ∧ ((DeckBox.panelsLabeled ⟨65, 68, 92, 1, 3⟩ ("Front inlay")).length : ℤ) = 1
    ∧ ((DeckBox.panelsLabeled ⟨65, 68, 92, 1, 3⟩ ("Back inlay")).length : ℤ) = 1 := by
  have h := panel_count ⟨65, 68, 92, 1, 3⟩ (by norm_num)
  refine ⟨?_, ?_, ?_, ?_⟩
  · rw [h.1]; try norm_num
  · rw [h.2.1]; try norm_num
  · rw [h.2.2.1]; try norm_num
  · rw [h.2.2.2]; try norm_num

/-- C8 counterexample.  At the default parameters the two Divider panels
carry edge code "fAff": the finger-hole symbol A appears in it, the
inset-rail symbol a does not, refuting the claim that each Divider uses
the inset-rail symbol on one of its edges. -/
theorem divider_edge_cex :
    deckboxDefault.panelsLabeled ("Divider")
      = [⟨92, 74, "fAff", [], "right", some ("Divider")⟩,
         ⟨92, 74, "fAff", [], "right", some ("Divider")⟩]
    ∧ insetSymbol ∉ ("fAff").toList
    ∧ fingerHoleSymbol ∈ ("fAff").toList := by
  refine ⟨?_, by decide, by decide⟩
  simp [deckboxDefault, DeckBox.panelsLabeled, DeckBox.render, List.filter,
    DeckBox.boxdepth, DeckBox.h, DeckBox.divider_bottom, DeckBox.divider_back_and_front,
    show pyRange 0 2 = [0, 1] from rfl, show pyRange 0 3 = [0, 1, 2] from rfl,
    show pyRange 1 3 = [1, 2] from rfl]
  norm_num

/-- C8 amended.  For every num ≥ 1 the run emits exactly num − 1 Divider
panels, each sized (cardheight, boxdepth) with edge code "fAff", which
uses the finger-hole custom symbol A on one of its edges (not the
inset-rail symbol a). -/
theorem divider_panels (b : DeckBox) (hn : 1 ≤ b.num) :
    ((b.panelsLabeled ("Divider")).length : ℤ) = b.num - 1
    ∧ b.panelsLabeled ("Divider")
        = List.replicate (b.num - 1).toNat
            (⟨b.cardheight, b.boxdepth, "fAff", [], "right", some ("Divider")⟩ : Panel)
    ∧ fingerHoleSymbol ∈ ("fAff").toList
    ∧ insetSymbol ∉ ("fAff").toList := by
  refine ⟨?_, ?_, by decide, by decide⟩
  · simp [DeckBox.panelsLabeled, DeckBox.render, List.filter_append, List.filter,
      filter_flatten_replicate, flatten_replicate_nil]
    omega
  · simp [DeckBox.panelsLabeled, DeckBox.render, List.filter_append, List.filter,
      filter_flatten_replicate, flatten_replicate_nil, DeckBox.h]

/-- C8 witness: the theorem at the default parameters (num = 3): two
Divider panels, each 92 × 74 with edge code "fAff". -/
theorem divider_panels_witness :
    ((deckboxDefault.panelsLabeled ("Divider")).length : ℤ) = 2
    ∧ deckboxDefault.panelsLabeled ("Divider")
        = List.replicate 2 (⟨92, 74, "fAff", [], "right", some ("Divider")⟩ : Panel) := by
  have h := divider_panels deckboxDefault (by norm_num [deckboxDefault])
  constructor
  · rw [h.1]; norm_num [deckboxDefault]
  · rw [h.2.1]
    norm_num [deckboxDefault, DeckBox.boxdepth, show Int.toNat 2 = 2 from rfl]

/-- C9 counterexample.  At the default parameters (thickness = 3) the
Lid Lip panel is emitted with dimensions 73.4 × 3, i.e. its strip height
is thickness = 3, not 2·thickness = 6 as the claim states. -/
theorem lid_lip_cex :
    deckboxDefault.panelsLabeled ("Lid Lip")
      = [⟨73.4, 3, "fEeE", [], "right", some ("Lid Lip")⟩]
    ∧ (3 : ℚ) ≠ 2 * 3 := by
  refine ⟨?_, by norm_num⟩
  simp [deckboxDefault, DeckBox.panelsLabeled, DeckBox.render, List.filter,
    DeckBox.boxdepth, DeckBox.h, DeckBox.divider_bottom, DeckBox.divider_back_and_front,
    show pyRange 0 2 = [0, 1] from rfl, show pyRange 0 3 = [0, 1, 2] from rfl,
    show pyRange 1 3 = [1, 2] from rfl]
  norm_num

/-- C9 amended.  In every run exactly one Lid Lip panel is emitted, with
dimensions (boxdepth − 0.2·thickness) by thickness (not by
2·thickness). -/
theorem lid_lip_panel (b : DeckBox) :
    b.panelsLabeled ("Lid Lip")
      = [⟨b.boxdepth - b.thickness * 0.2, b.thickness, "fEeE", [], "right",
          some ("Lid Lip")⟩] := by
  simp [DeckBox.panelsLabeled, DeckBox.render, List.filter_append, List.filter,
    filter_flatten_replicate, flatten_replicate_nil]
